import Mathlib

/-!
Verification of the gearman worker layer (gearman/worker.py).

The worker state of class GearmanWorker is embedded as the structure
GearmanWorker below.  Python dictionaries are embedded as association
lists with the helpers dict_lookup, dict_insert, dict_pop and dict_keys;
a raised Python exception is embedded as Except.error carrying a PyExc
value.  Command handlers and connections are identified by natural
numbers.  The outgoing handler calls send_job_status, send_job_complete,
send_job_failure, send_job_exception, send_job_data and send_job_warning
live in gearman/worker_handler.py, which is not part of this repository
snapshot; they are recorded in a log of SentCommand values, in call
order, as the specification describes them.
-/

namespace GearmanSpec

/-- Association-list embedding of a Python dict lookup: d[k] returns the
value of the first entry with key k, or none where Python would raise
KeyError. -/
def dict_lookup {α β : Type} [DecidableEq α] : List (α × β) → α → Option β
  | [], _ => none
  | (k1, v1) :: rest, k => if k1 = k then some v1 else dict_lookup rest k

/-- Association-list embedding of a Python dict assignment d[k] = v:
replaces the value of an existing entry in place, otherwise appends. -/
def dict_insert {α β : Type} [DecidableEq α] : List (α × β) → α → β → List (α × β)
  | [], k, v => [(k, v)]
  | (k1, v1) :: rest, k, v =>
      if k1 = k then (k, v) :: rest else (k1, v1) :: dict_insert rest k v

/-- Association-list embedding of d.pop(k, None): removes every entry
with key k (a Python dict holds at most one). -/
def dict_pop {α β : Type} [DecidableEq α] (d : List (α × β)) (k : α) : List (α × β) :=
  d.filter (fun p => decide (p.1 ≠ k))

/-- Association-list embedding of d.keys(). -/
def dict_keys {α β : Type} (d : List (α × β)) : List α :=
  d.map Prod.fst

/-- Embedding of the Python exceptions this module can raise. -/
inductive PyExc where
  | keyError
  | nameError
  | callbackError (message : String)
deriving DecidableEq

/-- Embedding of a GearmanJob as built by create_job: the owning
connection, the server handle, the task name, the unique id and the
data payload. -/
structure GearmanJob where
  conn : Nat
  handle : String
  task : String
  unique : String
  data : String
deriving DecidableEq

/-- A registered task callback: either returns a result payload or
raises (Except.error). -/
def Callback : Type := GearmanJob → Except PyExc String

/-- One outgoing job-reporting command emitted through a command
handler, as named in gearman/worker.py lines 129-157. -/
inductive SentCommand where
  | job_status (handler : Nat) (job : GearmanJob) (numerator denominator : Nat)
  | job_complete (handler : Nat) (job : GearmanJob) (data : String)
  | job_failure (handler : Nat) (job : GearmanJob)
  | job_exception (handler : Nat) (job : GearmanJob) (data : String)
  | job_data (handler : Nat) (job : GearmanJob) (data : String)
  | job_warning (handler : Nat) (job : GearmanJob) (data : String)
deriving DecidableEq

/-- The mutable state of a GearmanWorker instance.  The first seven
fields are the attributes set in __init__ and by the connection
manager (the two association maps).  handler_received_abilities records,
for every live handler, the ability list last pushed to it by
set_abilities; sent_commands and closed_connections record the outgoing
handler calls and connection closes, which happen in code outside this
repository snapshot. -/
structure GearmanWorker where
  worker_abilities : List (String × Callback)
  worker_client_id : Option String
  handler_initial_state_abilities : List String
  handler_initial_state_client_id : Option String
  command_handler_holding_job_lock : Option Nat
  handler_to_connection_map : List (Nat × Nat)
  connection_to_handler_map : List (Nat × Nat)
  handler_received_abilities : List (Nat × List String)
  sent_commands : List SentCommand
  closed_connections : List Nat

/-- The state right after GearmanWorker.__init__: empty ability table,
no client id, job lock not held, no connections, and
_update_initial_state applied to the empty table. -/
def init_worker : GearmanWorker :=
  { worker_abilities := []
    worker_client_id := none
    handler_initial_state_abilities := []
    handler_initial_state_client_id := none
    command_handler_holding_job_lock := none
    handler_to_connection_map := []
    connection_to_handler_map := []
    handler_received_abilities := []
    sent_commands := []
    closed_connections := [] }

/-- GearmanWorker._update_initial_state: copies the current ability
keys and client id into handler_initial_state. -/
def update_initial_state (self : GearmanWorker) : GearmanWorker :=
  { self with
    handler_initial_state_abilities := dict_keys self.worker_abilities
    handler_initial_state_client_id := self.worker_client_id }

/-- Modelled from the spec: GearmanWorkerCommandHandler.set_abilities is
not in this repository snapshot; per the specification it replaces the
ability list the handler advertises.  The loop over
handler_to_connection_map in register_task and unregister_task pushes
handler_initial_state abilities to every live handler, so the received
table is rebuilt with that list for every handler key of the map. -/
def broadcast_abilities (self : GearmanWorker) : GearmanWorker :=
  { self with
    handler_received_abilities :=
      self.handler_to_connection_map.map
        (fun p => (p.1, self.handler_initial_state_abilities)) }

/-- GearmanWorker.register_task: stores the callback under the task
name, refreshes handler_initial_state, pushes the new ability list to
every live handler and returns the task name. -/
def register_task (self : GearmanWorker) (task : String) (callback_function : Callback) :
    GearmanWorker × String :=
  let self1 := { self with
    worker_abilities := dict_insert self.worker_abilities task callback_function }
  let self2 := update_initial_state self1
  (broadcast_abilities self2, task)

/-- GearmanWorker.unregister_task: drops the task name (pop with a
default, so absence is tolerated), refreshes handler_initial_state,
pushes the new ability list to every live handler and returns the task
name. -/
def unregister_task (self : GearmanWorker) (task : String) :
    GearmanWorker × String :=
  let self1 := { self with
    worker_abilities := dict_pop self.worker_abilities task }
  let self2 := update_initial_state self1
  (broadcast_abilities self2, task)

/-- Modelled from the spec: GearmanConnectionManager.attempt_connect is
not in this repository snapshot; per the specification a newly connected
connection gets a fresh handler seeded with the current
handler_initial_state (ability table and client id), and the two
association maps record the new pair. -/
def connect_handler (self : GearmanWorker) (command_handler current_connection : Nat) :
    GearmanWorker :=
  { self with
    handler_to_connection_map :=
      dict_insert self.handler_to_connection_map command_handler current_connection
    connection_to_handler_map :=
      dict_insert self.connection_to_handler_map current_connection command_handler
    handler_received_abilities :=
      dict_insert self.handler_received_abilities command_handler
        self.handler_initial_state_abilities }

/-- GearmanWorker.set_job_lock: refuses a handler that is not in
handler_to_connection_map; a lock attempt fails while any handler holds
the lock, an unlock attempt fails unless the caller is the holder;
otherwise the holder field is set or cleared and True is returned. -/
def set_job_lock (self : GearmanWorker) (command_handler : Nat) (lock : Bool) :
    Bool × GearmanWorker :=
  if dict_lookup self.handler_to_connection_map command_handler = none then
    (false, self)
  else
    let failed_lock : Bool :=
      lock && self.command_handler_holding_job_lock.isSome
    let failed_unlock : Bool :=
      !lock && decide (self.command_handler_holding_job_lock ≠ some command_handler)
    if failed_lock || failed_unlock then
      (false, self)
    else if lock then
      (true, { self with command_handler_holding_job_lock := some command_handler })
    else
      (true, { self with command_handler_holding_job_lock := none })

/-- GearmanWorker.check_job_lock. -/
def check_job_lock (self : GearmanWorker) (command_handler : Nat) : Bool :=
  decide (self.command_handler_holding_job_lock = some command_handler)

/-- GearmanWorker._get_handler_for_job: the dict lookup
connection_to_handler_map[current_job.conn]; none stands for the
KeyError Python raises when the connection is absent. -/
def get_handler_for_job (self : GearmanWorker) (current_job : GearmanJob) : Option Nat :=
  dict_lookup self.connection_to_handler_map current_job.conn

/-- GearmanWorker.send_job_status: resolves the handler (KeyError
propagates when the owning connection is gone) and emits a work status
report. -/
def send_job_status (self : GearmanWorker) (current_job : GearmanJob)
    (numerator denominator : Nat) : Except PyExc GearmanWorker :=
  match get_handler_for_job self current_job with
  | none => Except.error PyExc.keyError
  | some h => Except.ok { self with
      sent_commands := self.sent_commands ++
        [SentCommand.job_status h current_job numerator denominator] }

/-- GearmanWorker.send_job_complete. -/
def send_job_complete (self : GearmanWorker) (current_job : GearmanJob)
    (data : String) : Except PyExc GearmanWorker :=
  match get_handler_for_job self current_job with
  | none => Except.error PyExc.keyError
  | some h => Except.ok { self with
      sent_commands := self.sent_commands ++
        [SentCommand.job_complete h current_job data] }

/-- GearmanWorker.send_job_failure. -/
def send_job_failure (self : GearmanWorker) (current_job : GearmanJob) :
    Except PyExc GearmanWorker :=
  match get_handler_for_job self current_job with
  | none => Except.error PyExc.keyError
  | some h => Except.ok { self with
      sent_commands := self.sent_commands ++
        [SentCommand.job_failure h current_job] }

/-- GearmanWorker.send_job_exception: emits a work exception report and
then also a work failure report through the same handler, in that
order. -/
def send_job_exception (self : GearmanWorker) (current_job : GearmanJob)
    (data : String) : Except PyExc GearmanWorker :=
  match get_handler_for_job self current_job with
  | none => Except.error PyExc.keyError
  | some h => Except.ok { self with
      sent_commands := self.sent_commands ++
        [SentCommand.job_exception h current_job data,
         SentCommand.job_failure h current_job] }

/-- GearmanWorker.send_job_data. -/
def send_job_data (self : GearmanWorker) (current_job : GearmanJob)
    (data : String) : Except PyExc GearmanWorker :=
  match get_handler_for_job self current_job with
  | none => Except.error PyExc.keyError
  | some h => Except.ok { self with
      sent_commands := self.sent_commands ++
        [SentCommand.job_data h current_job data] }

/-- GearmanWorker.send_job_warning. -/
def send_job_warning (self : GearmanWorker) (current_job : GearmanJob)
    (data : String) : Except PyExc GearmanWorker :=
  match get_handler_for_job self current_job with
  | none => Except.error PyExc.keyError
  | some h => Except.ok { self with
      sent_commands := self.sent_commands ++
        [SentCommand.job_warning h current_job data] }

/-- GearmanWorker.on_job_exception: sends a failure report for the job
and returns False.  The send can itself raise KeyError when the owning
connection is gone, in which case that error propagates. -/
def on_job_exception (self : GearmanWorker) (current_job : GearmanJob) :
    Except PyExc (Bool × GearmanWorker) :=
  (send_job_failure self current_job).map (fun w => (false, w))

/-- GearmanWorker.on_job_complete: sends a completion report carrying
the callback result and returns True. -/
def on_job_complete (self : GearmanWorker) (current_job : GearmanJob)
    (job_result : String) : Except PyExc (Bool × GearmanWorker) :=
  (send_job_complete self current_job job_result).map (fun w => (true, w))

/-- GearmanWorker.on_job_execute: looks the task up in worker_abilities
and invokes the callback inside a try block; any exception there (a
missing task name raising KeyError, or the callback raising) is caught
and routed to on_job_exception, otherwise the result goes to
on_job_complete. -/
def on_job_execute (self : GearmanWorker) (current_job : GearmanJob) :
    Except PyExc (Bool × GearmanWorker) :=
  match dict_lookup self.worker_abilities current_job.task with
  | none => on_job_exception self current_job
  | some function_callback =>
      match function_callback current_job with
      | Except.error _ => on_job_exception self current_job
      | Except.ok job_result => on_job_complete self current_job job_result

/-- Modelled from the spec: GearmanConnection.close and the manager
bookkeeping around it are not in this repository snapshot; per the
specification closing a connection removes it from the live set and
discards its handler pairing.  The close is recorded in
closed_connections. -/
def close_connection (self : GearmanWorker) (current_connection : Nat) : GearmanWorker :=
  match dict_lookup self.connection_to_handler_map current_connection with
  | some h =>
      { self with
        closed_connections := self.closed_connections ++ [current_connection]
        connection_to_handler_map :=
          dict_pop self.connection_to_handler_map current_connection
        handler_to_connection_map := dict_pop self.handler_to_connection_map h }
  | none =>
      { self with
        closed_connections := self.closed_connections ++ [current_connection] }

/-- Modelled from the spec: the superclass
GearmanConnectionManager.handle_error is not in this repository
snapshot; per the specification a failure on one connection closes only
that connection and discards its handler. -/
def super_handle_error (self : GearmanWorker) (current_connection : Nat) : GearmanWorker :=
  close_connection self current_connection

/-- GearmanWorker.handle_error: if the failing connection still has a
handler, first release the job lock through set_job_lock with
lock=False, then delegate to the superclass handler which tears the
connection down. -/
def handle_error (self : GearmanWorker) (current_connection : Nat) : GearmanWorker :=
  let self1 :=
    match dict_lookup self.connection_to_handler_map current_connection with
    | some current_handler => (set_job_lock self current_handler false).2
    | none => self
  super_handle_error self1 current_connection

/-- The while loop of GearmanWorker.work.  The loop body calls
get_worker_connections and poll_connections_until_stopped; the latter
is in the connection manager, outside this repository snapshot, so its
successive boolean return values are supplied by the poll_results
oracle and the loop is modelled as leaving the connection state
unchanged on a normal poll.  The loop exits at the first false. -/
def work_loop (self : GearmanWorker) : List Bool → GearmanWorker
  | [] => self
  | continue_working :: rest =>
      if continue_working then work_loop self rest else self

/-- GearmanWorker.work: binds the local live_connections to the empty
list before the loop, runs the poll loop, and afterwards closes exactly
the connections in live_connections, which was never reassigned. -/
def work (self : GearmanWorker) (poll_results : List Bool) : GearmanWorker :=
  let live_connections : List Nat := []
  let self1 := work_loop self poll_results
  live_connections.foldl close_connection self1

/-- GearmanWorker.shutdown: clears the job lock holder, then evaluates
the argument current_connection for the superclass call; that name is
unbound in the method body and in the module, so Python raises
NameError before the superclass shutdown runs. -/
def shutdown (self : GearmanWorker) : GearmanWorker × Except PyExc Unit :=
  let self1 := { self with command_handler_holding_job_lock := none }
  (self1, Except.error PyExc.nameError)

/-- One call of the worker registration surface together with the
spec-modelled connect event, used to quantify over call sequences. -/
inductive AbilityOp where
  | registerOp (task : String) (callback_function : Callback)
  | unregisterOp (task : String)
  | connectOp (command_handler : Nat) (current_connection : Nat)

/-- Applies one AbilityOp to the worker state. -/
def apply_ability_op (self : GearmanWorker) : AbilityOp → GearmanWorker
  | AbilityOp.registerOp t cb => (register_task self t cb).1
  | AbilityOp.unregisterOp t => (unregister_task self t).1
  | AbilityOp.connectOp h c => connect_handler self h c

/-- Folds a sequence of set_job_lock calls over a state, keeping the
updated state of each call. -/
def apply_lock_calls (self : GearmanWorker) (calls : List (Nat × Bool)) : GearmanWorker :=
  calls.foldl (fun st c => (set_job_lock st c.1 c.2).2) self

/-- The worker state reached from __init__ by a sequence of
registration and connect events followed by a sequence of set_job_lock
calls. -/
def worker_after_ops (ops : List AbilityOp) (calls : List (Nat × Bool)) : GearmanWorker :=
  apply_lock_calls (List.foldl apply_ability_op init_worker ops) calls

/-- A callback that returns normally. -/
def sample_callback : Callback := fun _ => Except.ok "done"

/-- A callback that always raises. -/
def failing_callback : Callback := fun _ => Except.error (PyExc.callbackError "boom")

/-- A job owned by connection 0. -/
def sample_job : GearmanJob :=
  { conn := 0, handle := "H:1", task := "echo", unique := "u1", data := "tea" }

/-- A job whose task always raises. -/
def failing_job : GearmanJob :=
  { conn := 0, handle := "H:2", task := "fail", unique := "u2", data := "x" }

/-- A job owned by connection 3, which is never connected in the
concrete states below. -/
def stale_job : GearmanJob :=
  { conn := 3, handle := "H:9", task := "t", unique := "u9", data := "d" }

/-- A worker with one live connection 0 paired with handler 7 and no
registered abilities. -/
def sample_worker : GearmanWorker :=
  { init_worker with
    connection_to_handler_map := [(0, 7)]
    handler_to_connection_map := [(7, 0)] }

/-- A worker with one live connection 0 paired with handler 7 and one
registered task whose callback raises. -/
def failing_worker : GearmanWorker :=
  { init_worker with
    worker_abilities := [("fail", failing_callback)]
    connection_to_handler_map := [(0, 7)]
    handler_to_connection_map := [(7, 0)] }

/-- A worker with one live connection 1 paired with handler 2, used to
evaluate the work loop teardown. -/
def live_worker : GearmanWorker :=
  { init_worker with
    connection_to_handler_map := [(1, 2)]
    handler_to_connection_map := [(2, 1)] }

/-- Looking a key up after popping it always misses. -/
theorem dict_lookup_dict_pop_self {α β : Type} [DecidableEq α]
    (d : List (α × β)) (k : α) : dict_lookup (dict_pop d k) k = none := by
  induction d with
  | nil => rfl
  | cons q rest ih =>
      obtain ⟨k1, v1⟩ := q
      by_cases hk : k1 = k
      · simpa [dict_pop, List.filter, hk] using ih
      · simpa [dict_pop, List.filter, hk, dict_lookup] using ih

/-- Every entry of an insertion is an old entry or the inserted pair. -/
theorem mem_dict_insert {α β : Type} [DecidableEq α]
    {d : List (α × β)} {k : α} {v : β} {p : α × β}
    (hp : p ∈ dict_insert d k v) : p ∈ d ∨ p = (k, v) := by
  induction d with
  | nil =>
      simp only [dict_insert, List.mem_singleton] at hp
      exact Or.inr hp
  | cons q rest ih =>
      obtain ⟨k1, v1⟩ := q
      simp only [dict_insert] at hp
      by_cases hq : k1 = k
      · rw [if_pos hq] at hp
        rcases List.mem_cons.mp hp with h1 | h1
        · exact Or.inr h1
        · exact Or.inl (List.mem_cons_of_mem _ h1)
      · rw [if_neg hq] at hp
        rcases List.mem_cons.mp hp with h1 | h1
        · exact Or.inl (h1 ▸ List.mem_cons_self _ _)
        · rcases ih h1 with h2 | h2
          · exact Or.inl (List.mem_cons_of_mem _ h2)
          · exact Or.inr h2

/-- A successful lock acquisition requires a free lock and installs the
caller as holder. -/
theorem set_job_lock_true_success (st : GearmanWorker) (h : Nat)
    (hs : (set_job_lock st h true).1 = true) :
    st.command_handler_holding_job_lock = none ∧
    (set_job_lock st h true).2.command_handler_holding_job_lock = some h := by
  cases hl : dict_lookup st.handler_to_connection_map h with
  | none => simp [set_job_lock, hl] at hs
  | some c =>
      cases hh : st.command_handler_holding_job_lock with
      | some h2 => simp [set_job_lock, hl, hh] at hs
      | none => exact ⟨rfl, by simp [set_job_lock, hl, hh]⟩

/-- C1: from the initial state, along any sequence of registration,
connect and set_job_lock events, the job lock field holds at most one
handler, and a set_job_lock call with lock=True succeeds exactly by
installing the caller while no handler held the lock. -/
theorem job_lock_single_owner (ops : List AbilityOp) (calls : List (Nat × Bool)) :
    ((worker_after_ops ops calls).command_handler_holding_job_lock = none ∨
      ∃ h, (worker_after_ops ops calls).command_handler_holding_job_lock = some h) ∧
    ∀ h, (set_job_lock (worker_after_ops ops calls) h true).1 = true →
      (worker_after_ops ops calls).command_handler_holding_job_lock = none ∧
      (set_job_lock (worker_after_ops ops calls) h true).2.command_handler_holding_job_lock
        = some h := by
  constructor
  · cases hv : (worker_after_ops ops calls).command_handler_holding_job_lock with
    | none => exact Or.inl rfl
    | some h => exact Or.inr ⟨h, rfl⟩
  · intro h hs
    exact set_job_lock_true_success (worker_after_ops ops calls) h hs

/-- Witness for C1: handler 0 connects, acquires the lock from the
initial state, and ends up the holder. -/
theorem job_lock_single_owner_witness :
    (worker_after_ops [AbilityOp.connectOp 0 0] []).command_handler_holding_job_lock = none ∧
    (set_job_lock (worker_after_ops [AbilityOp.connectOp 0 0] []) 0
        true).2.command_handler_holding_job_lock = some 0 :=
  (job_lock_single_owner [AbilityOp.connectOp 0 0] []).2 0 rfl

/-- C7: a lock attempt while a different handler holds the lock, and an
unlock attempt by a non-holder, both return False and leave the state,
in particular the holder, unchanged. -/
theorem lock_contention_returns_false (st : GearmanWorker) (h : Nat) :
    (∀ h2, st.command_handler_holding_job_lock = some h2 → h2 ≠ h →
      set_job_lock st h true = (false, st)) ∧
    (st.command_handler_holding_job_lock ≠ some h →
      set_job_lock st h false = (false, st)) := by
  constructor
  · intro h2 hhold _
    cases hl : dict_lookup st.handler_to_connection_map h with
    | none => simp [set_job_lock, hl]
    | some c => simp [set_job_lock, hl, hhold]
  · intro hne
    cases hl : dict_lookup st.handler_to_connection_map h with
    | none => simp [set_job_lock, hl]
    | some c => simp [set_job_lock, hl, hne]

/-- Witness for C7: handler 9 holds the lock in a two-handler state;
handler 7 can neither acquire nor release it, and the state is
untouched. -/
theorem lock_contention_returns_false_witness :
    set_job_lock
      { sample_worker with command_handler_holding_job_lock := some 9 } 7 true =
      (false, { sample_worker with command_handler_holding_job_lock := some 9 }) ∧
    set_job_lock
      { sample_worker with command_handler_holding_job_lock := some 9 } 7 false =
      (false, { sample_worker with command_handler_holding_job_lock := some 9 }) :=
  ⟨(lock_contention_returns_false
      { sample_worker with command_handler_holding_job_lock := some 9 } 7).1 9 rfl
      (by decide),
   (lock_contention_returns_false
      { sample_worker with command_handler_holding_job_lock := some 9 } 7).2
      (by simp)⟩

/-- C10: shutdown clears the job lock holder and then raises NameError
on the unbound name current_connection, so it never completes normally,
whatever the worker state. -/
theorem shutdown_always_raises_name_error (st : GearmanWorker) :
    (shutdown st).1.command_handler_holding_job_lock = none ∧
    (shutdown st).2 = Except.error PyExc.nameError :=
  ⟨rfl, rfl⟩

/-- C8: when the owning connection is live, send_job_exception emits a
work exception report and then a work failure report for the same job,
in that order, through the owning handler. -/
theorem job_exception_sends_exception_then_failure (st : GearmanWorker)
    (current_job : GearmanJob) (data : String) (h : Nat)
    (hh : get_handler_for_job st current_job = some h) :
    send_job_exception st current_job data = Except.ok { st with
      sent_commands := st.sent_commands ++
        [SentCommand.job_exception h current_job data,
         SentCommand.job_failure h current_job] } := by
  simp [send_job_exception, hh]

/-- Witness for C8: a concrete job on live connection 0 is reported
through handler 7, exception first, failure second. -/
theorem job_exception_sends_exception_then_failure_witness :
    send_job_exception sample_worker sample_job "p" = Except.ok { sample_worker with
      sent_commands := sample_worker.sent_commands ++
        [SentCommand.job_exception 7 sample_job "p",
         SentCommand.job_failure 7 sample_job] } :=
  job_exception_sends_exception_then_failure sample_worker sample_job "p" 7 rfl

/-- C2: a callback that raises is caught at the dispatch boundary of
on_job_execute: a failure report for the job is sent through its owning
handler, False is returned, and no exception escapes (the result is
Except.ok, not Except.error). -/
theorem callback_exception_converted_to_failure (st : GearmanWorker)
    (current_job : GearmanJob) (function_callback : Callback) (e : PyExc) (h : Nat)
    (hcb : dict_lookup st.worker_abilities current_job.task = some function_callback)
    (hraise : function_callback current_job = Except.error e)
    (hh : get_handler_for_job st current_job = some h) :
    on_job_execute st current_job = Except.ok (false, { st with
      sent_commands := st.sent_commands ++ [SentCommand.job_failure h current_job] }) := by
  simp [on_job_execute, hcb, hraise, on_job_exception, send_job_failure, hh, Except.map]

/-- Witness for C2: the always-raising callback of failing_worker is
caught; a failure report goes out through handler 7 and False comes
back. -/
theorem callback_exception_converted_to_failure_witness :
    on_job_execute failing_worker failing_job = Except.ok (false, { failing_worker with
      sent_commands := failing_worker.sent_commands ++
        [SentCommand.job_failure 7 failing_job] }) :=
  callback_exception_converted_to_failure failing_worker failing_job failing_callback
    (PyExc.callbackError "boom") 7 rfl rfl rfl

/-- C9: a job whose task name is absent from worker_abilities is not a
silent no-op: the KeyError of the table lookup is caught at the
dispatch boundary and surfaced as a failure report for the job, with
False returned. -/
theorem unregistered_task_sends_failure (st : GearmanWorker)
    (current_job : GearmanJob) (h : Nat)
    (habs : dict_lookup st.worker_abilities current_job.task = none)
    (hh : get_handler_for_job st current_job = some h) :
    on_job_execute st current_job = Except.ok (false, { st with
      sent_commands := st.sent_commands ++ [SentCommand.job_failure h current_job] }) := by
  simp [on_job_execute, habs, on_job_exception, send_job_failure, hh, Except.map]

/-- Witness for C9: sample_worker has no registered abilities, so the
echo job produces a failure report through handler 7 and returns
False. -/
theorem unregistered_task_sends_failure_witness :
    on_job_execute sample_worker sample_job = Except.ok (false, { sample_worker with
      sent_commands := sample_worker.sent_commands ++
        [SentCommand.job_failure 7 sample_job] }) :=
  unregistered_task_sends_failure sample_worker sample_job 7 rfl rfl

/-- Counterexample for C5: against the fresh worker, whose connection
map is empty, every job-reporting call on stale_job raises KeyError
instead of completing as a tolerated no-op. -/
theorem stale_job_report_crashes_counterexample :
    get_handler_for_job init_worker stale_job = none ∧
    send_job_status init_worker stale_job 1 2 = Except.error PyExc.keyError ∧
    send_job_complete init_worker stale_job "r" = Except.error PyExc.keyError ∧
    send_job_failure init_worker stale_job = Except.error PyExc.keyError ∧
    send_job_exception init_worker stale_job "e" = Except.error PyExc.keyError ∧
    send_job_data init_worker stale_job "x" = Except.error PyExc.keyError ∧
    send_job_warning init_worker stale_job "w" = Except.error PyExc.keyError :=
  ⟨rfl, rfl, rfl, rfl, rfl, rfl, rfl⟩

/-- C5 amended: every job-reporting call against a job whose owning
connection is absent from connection_to_handler_map raises an uncaught
KeyError from the handler lookup; nothing is sent and the exception
propagates to the caller. -/
theorem stale_job_report_raises_key_error (st : GearmanWorker)
    (current_job : GearmanJob) (numerator denominator : Nat) (data : String)
    (habs : dict_lookup st.connection_to_handler_map current_job.conn = none) :
    send_job_status st current_job numerator denominator = Except.error PyExc.keyError ∧
    send_job_complete st current_job data = Except.error PyExc.keyError ∧
    send_job_failure st current_job = Except.error PyExc.keyError ∧
    send_job_exception st current_job data = Except.error PyExc.keyError ∧
    send_job_data st current_job data = Except.error PyExc.keyError ∧
    send_job_warning st current_job data = Except.error PyExc.keyError := by
  refine ⟨?_, ?_, ?_, ?_, ?_, ?_⟩ <;>
    simp [send_job_status, send_job_complete, send_job_failure, send_job_exception,
      send_job_data, send_job_warning, get_handler_for_job, habs]

/-- Witness for C5 amended: the fresh worker has no connections, so
reporting stale_job raises KeyError on every call. -/
theorem stale_job_report_raises_key_error_witness :
    send_job_status init_worker stale_job 1 2 = Except.error PyExc.keyError ∧
    send_job_complete init_worker stale_job "d" = Except.error PyExc.keyError ∧
    send_job_failure init_worker stale_job = Except.error PyExc.keyError ∧
    send_job_exception init_worker stale_job "d" = Except.error PyExc.keyError ∧
    send_job_data init_worker stale_job "d" = Except.error PyExc.keyError ∧
    send_job_warning init_worker stale_job "d" = Except.error PyExc.keyError :=
  stale_job_report_raises_key_error init_worker stale_job 1 2 "d" rfl

/-- C3: when the handler paired with the failing connection holds the
job lock (and the dual map still knows the handler, as the bijective
pairing guarantees), handle_error clears the lock holder and the
connection is gone from the live map afterwards: teardown never leaves
the lock permanently held. -/
theorem handle_error_releases_job_lock (st : GearmanWorker) (current_connection h : Nat)
    (hmap : dict_lookup st.connection_to_handler_map current_connection = some h)
    (hdual : dict_lookup st.handler_to_connection_map h ≠ none)
    (hhold : st.command_handler_holding_job_lock = some h) :
    (handle_error st current_connection).command_handler_holding_job_lock = none ∧
    dict_lookup (handle_error st current_connection).connection_to_handler_map
      current_connection = none := by
  obtain ⟨c, hc⟩ : ∃ c, dict_lookup st.handler_to_connection_map h = some c := by
    cases hv : dict_lookup st.handler_to_connection_map h with
    | none => exact absurd hv hdual
    | some c => exact ⟨c, rfl⟩
  constructor
  · simp [handle_error, hmap, set_job_lock, hc, hhold, super_handle_error,
      close_connection]
  · simp [handle_error, hmap, set_job_lock, hc, hhold, super_handle_error,
      close_connection, dict_lookup_dict_pop_self]

/-- Witness for C3: handler 7 of live connection 0 holds the lock; a
connection error on connection 0 releases it and removes the
connection. -/
theorem handle_error_releases_job_lock_witness :
    (handle_error { sample_worker with command_handler_holding_job_lock := some 7 }
        0).command_handler_holding_job_lock = none ∧
    dict_lookup (handle_error
        { sample_worker with command_handler_holding_job_lock := some 7 }
        0).connection_to_handler_map 0 = none :=
  handle_error_releases_job_lock
    { sample_worker with command_handler_holding_job_lock := some 7 } 0 7
    rfl (by simp [sample_worker, init_worker, dict_lookup]) rfl

/-- C4 evaluated on the code: with one live connection and a first poll
that ends the loop, work closes nothing at all, because the local
live_connections list it iterates at the end is the empty list bound
before the loop; connection 1 is still live afterwards, against the
claim that every still-live connection is closed at termination. -/
theorem work_closes_no_connections_at_termination :
    (work live_worker [false]).closed_connections = [] ∧
    dict_lookup (work live_worker [false]).connection_to_handler_map 1 = some 2 :=
  ⟨rfl, rfl⟩

/-- The broadcast invariant of C6: handler_initial_state carries the
current ability keys, and every live handler last received exactly that
key list. -/
def ability_broadcast_inv (self : GearmanWorker) : Prop :=
  self.handler_initial_state_abilities = dict_keys self.worker_abilities ∧
  ∀ p ∈ self.handler_received_abilities, p.2 = dict_keys self.worker_abilities

/-- Each registration, unregistration or connect event preserves the
broadcast invariant. -/
theorem apply_ability_op_preserves (self : GearmanWorker) (op : AbilityOp)
    (hinv : ability_broadcast_inv self) :
    ability_broadcast_inv (apply_ability_op self op) := by
  cases op with
  | registerOp t cb =>
      refine ⟨rfl, ?_⟩
      intro p hp
      simp only [apply_ability_op, register_task, broadcast_abilities,
        update_initial_state, List.mem_map] at hp
      obtain ⟨q, _, hq⟩ := hp
      rw [← hq]
      rfl
  | unregisterOp t =>
      refine ⟨rfl, ?_⟩
      intro p hp
      simp only [apply_ability_op, unregister_task, broadcast_abilities,
        update_initial_state, List.mem_map] at hp
      obtain ⟨q, _, hq⟩ := hp
      rw [← hq]
      rfl
  | connectOp h c =>
      obtain ⟨h1, h2⟩ := hinv
      refine ⟨h1, ?_⟩
      intro p hp
      simp only [apply_ability_op, connect_handler] at hp ⊢
      rcases mem_dict_insert hp with hmem | hpair
      · exact h2 p hmem
      · rw [hpair]
        exact h1

/-- The broadcast invariant holds after any event sequence from any
state that satisfies it. -/
theorem ability_ops_fold_inv (ops : List AbilityOp) (self : GearmanWorker)
    (hinv : ability_broadcast_inv self) :
    ability_broadcast_inv (List.foldl apply_ability_op self ops) := by
  induction ops generalizing self with
  | nil => exact hinv
  | cons op rest ih => exact ih _ (apply_ability_op_preserves self op hinv)

/-- C6: after any sequence of register, unregister and connect events
from the initial state, handler_initial_state carries exactly the keys
of worker_abilities, and the ability list every live handler received
equals those keys, independent of the order of the calls. -/
theorem ability_broadcast_equals_registered_set (ops : List AbilityOp) :
    (List.foldl apply_ability_op init_worker ops).handler_initial_state_abilities =
      dict_keys (List.foldl apply_ability_op init_worker ops).worker_abilities ∧
    ∀ p ∈ (List.foldl apply_ability_op init_worker ops).handler_received_abilities,
      p.2 = dict_keys (List.foldl apply_ability_op init_worker ops).worker_abilities :=
  ability_ops_fold_inv ops init_worker
    ⟨rfl, by intro p hp; exact absurd hp (List.not_mem_nil p)⟩

/-- Witness for C6: handler 5 connects before the echo task is
registered, yet the list it last received is exactly the current key
set of worker_abilities. -/
theorem ability_broadcast_equals_registered_set_witness :
    ((5 : Nat), ["echo"]) ∈ (List.foldl apply_ability_op init_worker
      [AbilityOp.connectOp 5 6,
       AbilityOp.registerOp "echo" sample_callback]).handler_received_abilities ∧
    (["echo"] : List String) = dict_keys (List.foldl apply_ability_op init_worker
      [AbilityOp.connectOp 5 6,
       AbilityOp.registerOp "echo" sample_callback]).worker_abilities :=
  have hmem : ((5 : Nat), ["echo"]) ∈ (List.foldl apply_ability_op init_worker
      [AbilityOp.connectOp 5 6,
       AbilityOp.registerOp "echo" sample_callback]).handler_received_abilities := by
    simp [apply_ability_op, connect_handler, register_task, broadcast_abilities,
      update_initial_state, init_worker, dict_insert, dict_keys]
  ⟨hmem, (ability_broadcast_equals_registered_set
      [AbilityOp.connectOp 5 6,
       AbilityOp.registerOp "echo" sample_callback]).2 (5, ["echo"]) hmem⟩

end GearmanSpec
